import Mathlib

/-!
# ConnectHub — verification of the data model and operations

A shallow embedding of the ConnectHub social-network application:

* the database schema (`profiles`, `posts`, `likes`, `comments` with their
  UNIQUE and ON DELETE CASCADE constraints, from the SQL setup scripts),
* the client operations (`checkIfLiked`, `handleLike`, `fetchComments`,
  `fetchPosts`, `handleCreatePost`, `handleUserSession`),
* the alternative in-memory REST server (`register`, `login`, `getUserProfile`,
  `serverCreatePost`).

Timestamps are modelled as natural numbers, ids as strings; the displayed
like counter of the client is a JS number, modelled as `Int`.
-/

namespace ConnectHub

/-- A row of `public.profiles` (complete-database-setup.sql). -/
structure Profile where
  id : String
  name : String
  email : String
  bio : String
  avatar_url : Option String
  created_at : Nat
deriving DecidableEq

/-- A row of `public.posts`. -/
structure Post where
  id : String
  content : String
  user_id : String
  created_at : Nat
deriving DecidableEq

/-- A row of `public.likes` (UNIQUE(user_id, post_id) enforced by `insertLike`). -/
structure Like where
  id : String
  user_id : String
  post_id : String
  created_at : Nat
deriving DecidableEq

/-- A row of `public.comments`. -/
structure Comment where
  id : String
  content : String
  user_id : String
  post_id : String
  created_at : Nat
deriving DecidableEq

/-- The whole relational store. -/
structure DB where
  profiles : List Profile
  posts : List Post
  likes : List Like
  comments : List Comment
deriving DecidableEq

/-- Errors the database surfaces to a client: `conflict` is a uniqueness
violation (23505), `fkViolation` a foreign-key violation (23503),
`multipleRows` the PostgREST error of `maybeSingle` on several rows. -/
inductive DbError where
  | conflict
  | fkViolation
  | multipleRows
deriving DecidableEq

/-- All Like rows for the pair (user, post). -/
def likeRows (db : DB) (uid pid : String) : List Like :=
  db.likes.filter (fun l => l.user_id == uid && l.post_id == pid)

/-- `like_count(P)`: the count query of the dashboard, and the
`posts_with_counts` view — the number of Like rows referencing `pid`. -/
def like_count (db : DB) (pid : String) : Nat :=
  (db.likes.filter (fun l => l.post_id == pid)).length

/-- `comment_count(P)`: the number of Comment rows referencing `pid`. -/
def comment_count (db : DB) (pid : String) : Nat :=
  (db.comments.filter (fun c => c.post_id == pid)).length

/-- INSERT INTO likes, under the schema's constraints: the
`UNIQUE(user_id, post_id)` constraint rejects a duplicate pair with a
conflict, and the `NOT NULL` foreign keys to `profiles` and `posts`
reject a missing referent. On success the row is appended. -/
def insertLike (db : DB) (lid uid pid : String) (now : Nat) : Except DbError DB :=
  if db.likes.any (fun l => l.user_id == uid && l.post_id == pid) then
    .error .conflict
  else if !(db.profiles.any (fun pr => pr.id == uid)) then
    .error .fkViolation
  else if !(db.posts.any (fun p => p.id == pid)) then
    .error .fkViolation
  else
    .ok { db with likes := db.likes ++ [{ id := lid, user_id := uid, post_id := pid, created_at := now }] }

/-- DELETE FROM likes WHERE post_id = pid AND user_id = uid
(the unlike branch of `handleLike`); deleting nothing is not an error. -/
def deleteLikes (db : DB) (uid pid : String) : DB :=
  { db with likes := db.likes.filter (fun l => !(l.user_id == uid && l.post_id == pid)) }

/-- `checkIfLiked` (post-interactions component): select the Like row for
(post, user) with `maybeSingle`, then coerce presence to a boolean
(`setIsLiked(!!data)`). `maybeSingle` reports an error when several rows
match, returns `none` (no error) when none does. -/
def checkIfLiked (db : DB) (uid pid : String) : Except DbError Bool :=
  match likeRows db uid pid with
  | [] => .ok false
  | [_] => .ok true
  | _ => .error .multipleRows

/-- The client state `handleLike` updates: the store after the request, the
`isLiked` flag and the displayed like counter. -/
structure LikeToggleResult where
  db : DB
  isLiked : Bool
  likeCount : Int
deriving DecidableEq

/-- `handleLike` (post-interactions component): when `isLiked`, delete the
(user, post) Like rows, clear the flag and floor-decrement the displayed
count (`Math.max(0, prev - 1)`); otherwise insert a Like row and increment.
A failed insert only raises a toast: flag and count are left unchanged. -/
def handleLike (db : DB) (uid pid : String) (isLiked : Bool) (likeCount : Int)
    (newLikeId : String) (now : Nat) : LikeToggleResult :=
  if isLiked then
    { db := deleteLikes db uid pid, isLiked := false, likeCount := max 0 (likeCount - 1) }
  else
    match insertLike db newLikeId uid pid now with
    | .ok db' => { db := db', isLiked := true, likeCount := likeCount + 1 }
    | .error _ => { db := db, isLiked := isLiked, likeCount := likeCount }

/-- DELETE FROM posts WHERE id = pid, with the schema's
`ON DELETE CASCADE` on `likes.post_id` and `comments.post_id`: the post's
Like and Comment rows are removed with it. -/
def deletePost (db : DB) (pid : String) : DB :=
  { db with
    posts := db.posts.filter (fun p => !(p.id == pid))
    likes := db.likes.filter (fun l => !(l.post_id == pid))
    comments := db.comments.filter (fun c => !(c.post_id == pid)) }

/-! ## Feed: fetchPosts (dashboard) -/

/-- The descending-creation-time order of the feed (`.order("created_at",
{ ascending: false })`). -/
def postLater (a b : Post) : Prop := b.created_at ≤ a.created_at

instance : DecidableRel postLater := fun a b => Nat.decLe b.created_at a.created_at

instance : IsTotal Post postLater := ⟨fun a b => Nat.le_total b.created_at a.created_at⟩

instance : IsTrans Post postLater :=
  ⟨fun _ _ _ hab hbc => Nat.le_trans hbc hab⟩

/-- One entry of the dashboard feed: the post, the embedded author profile
(`profiles!posts_user_id_fkey`), and the two count queries. -/
structure FeedPost where
  post : Post
  author : Option Profile
  like_count : Nat
  comment_count : Nat
deriving DecidableEq

/-- `fetchPosts` (dashboard page): select all posts ordered by
`created_at` descending with the embedded author profile, then fetch the
like and comment counts of each. -/
def fetchPosts (db : DB) : List FeedPost :=
  (List.insertionSort postLater db.posts).map (fun p =>
    { post := p
      author := db.profiles.find? (fun pr => pr.id == p.user_id)
      like_count := like_count db p.id
      comment_count := comment_count db p.id })

/-! ## Comments: fetchComments (post-interactions component) -/

/-- The ascending-creation-time order of a comment thread
(`.order("created_at", { ascending: true })`). -/
def commentEarlier (a b : Comment) : Prop := a.created_at ≤ b.created_at

instance : DecidableRel commentEarlier := fun a b => Nat.decLe a.created_at b.created_at

instance : IsTotal Comment commentEarlier := ⟨fun a b => Nat.le_total a.created_at b.created_at⟩

instance : IsTrans Comment commentEarlier :=
  ⟨fun _ _ _ hab hbc => Nat.le_trans hab hbc⟩

/-- A comment as the dialog renders it: the row joined with its author
profile (`profiles!comments_user_id_fkey`). -/
structure CommentView where
  comment : Comment
  author : Option Profile
deriving DecidableEq

/-- `fetchComments` (post-interactions component): the comments whose
`post_id` is the given post, ordered by `created_at` ascending, each with
its embedded author profile. -/
def fetchComments (db : DB) (pid : String) : List CommentView :=
  (List.insertionSort commentEarlier (db.comments.filter (fun c => c.post_id == pid))).map
    (fun c => { comment := c, author := db.profiles.find? (fun pr => pr.id == c.user_id) })

/-! ## Create post: handleCreatePost (dashboard) -/

/-- INSERT INTO posts, under the `NOT NULL` foreign key on `user_id`. -/
def insertPost (db : DB) (pid uid content : String) (now : Nat) : Except DbError DB :=
  if !(db.profiles.any (fun pr => pr.id == uid)) then
    .error .fkViolation
  else
    .ok { db with posts := db.posts ++ [{ id := pid, content := content, user_id := uid, created_at := now }] }

/-- JavaScript's `String.prototype.trim()`: strip leading and trailing
whitespace (modelled directly on the character list, since Lean's
`String.trim` does not reduce in the kernel). -/
def jsTrim (s : String) : String :=
  String.mk (((s.data.dropWhile Char.isWhitespace).reverse.dropWhile Char.isWhitespace).reverse)

/-- What `handleCreatePost` does with the form submission: silently return
(`noop`), surface an insert error as a toast (`failed`), or insert. -/
inductive CreatePostOutcome where
  | noop
  | failed (e : DbError)
  | created (db : DB)
deriving DecidableEq

/-- `handleCreatePost` (dashboard page): `if (!newPost.trim() || !user)
return` — an empty-after-trim content or a missing user silently returns,
with no error surfaced; otherwise the un-trimmed content is inserted as a
post owned by the user. -/
def handleCreatePost (db : DB) (user : Option Profile) (newPost : String)
    (pid : String) (now : Nat) : CreatePostOutcome :=
  if jsTrim newPost == "" then .noop
  else
    match user with
    | none => .noop
    | some u =>
      match insertPost db pid u.id newPost now with
      | .error e => .failed e
      | .ok db' => .created db'

/-! ## Identity/Profile Resolver: handleUserSession (use-auth hook) -/

/-- JavaScript truthiness of an optional string: `undefined` and `""` are
falsy. -/
def strTruthy : Option String → Bool
  | none => false
  | some s => !(s == "")

/-- `email.split("@")[0]` — everything before the first `@` (the whole
string when there is no `@`). -/
def localPart (email : String) : String :=
  (email.splitOn "@").headD ""

/-- The name `handleUserSession` gives a freshly created profile:
`authUser.user_metadata?.name || authUser.email?.split("@")[0] || "User"`. -/
def newProfileName (metaName mail : Option String) : String :=
  if strTruthy metaName then metaName.getD ""
  else if strTruthy (mail.map localPart) then (mail.map localPart).getD ""
  else "User"

/-- The profile row `handleUserSession` inserts when none exists:
name as above, `email: authUser.email || ""`,
`bio: authUser.user_metadata?.bio || ""`. -/
def createdProfile (uid : String) (metaName metaBio mail : Option String)
    (now : Nat) : Profile :=
  { id := uid
    name := newProfileName metaName mail
    email := if strTruthy mail then mail.getD "" else ""
    bio := if strTruthy metaBio then metaBio.getD "" else ""
    avatar_url := none
    created_at := now }

/-- `handleUserSession` (use-auth hook): look the profile up by the
principal's id; when absent, insert `createdProfile` and resolve to it. -/
def handleUserSession (db : DB) (uid : String) (metaName metaBio mail : Option String)
    (now : Nat) : DB × Option Profile :=
  match db.profiles.find? (fun pr => pr.id == uid) with
  | some p => (db, some p)
  | none =>
    let np := createdProfile uid metaName metaBio mail now
    ({ db with profiles := db.profiles ++ [np] }, some np)

/-! ## The in-memory REST server (scripts/server.js) -/

/-- A user of the in-memory store — the stored record keeps the bcrypt
password hash. -/
structure SUser where
  id : String
  name : String
  email : String
  password : String
  bio : String
  createdAt : Nat
deriving DecidableEq

/-- A post of the in-memory store. -/
structure SPost where
  id : String
  content : String
  authorId : String
  createdAt : Nat
deriving DecidableEq

/-- The server's module-level state: the `users` and `posts` arrays. -/
structure ServerState where
  users : List SUser
  posts : List SPost
deriving DecidableEq

/-- The user object the server returns:
`const { password: _, ...userWithoutPassword } = user` — every field of the
stored record except the password. -/
structure PublicUser where
  id : String
  name : String
  email : String
  bio : String
  createdAt : Nat
deriving DecidableEq

/-- The password-stripping destructuring used by register, login and
get-user-by-id. -/
def omitPassword (u : SUser) : PublicUser :=
  { id := u.id, name := u.name, email := u.email, bio := u.bio, createdAt := u.createdAt }

/-- The embedded author object of a post response (`{id, name, email, bio}`). -/
structure AuthorInfo where
  id : String
  name : String
  email : String
  bio : String
deriving DecidableEq

/-- The author object `getPostsWithAuthors` and the create-post route embed. -/
def authorInfo (u : SUser) : AuthorInfo :=
  { id := u.id, name := u.name, email := u.email, bio := u.bio }

/-- A JSON response body of the server. -/
inductive ApiBody where
  | message (text : String)
  | auth (token : String) (user : PublicUser)
  | user (u : PublicUser)
  | post (p : SPost) (author : AuthorInfo)
deriving DecidableEq

/-- An HTTP response: status code and body. -/
structure ApiResponse where
  status : Nat
  body : ApiBody
deriving DecidableEq

/-- `users.find((user) => user.id === id)`. -/
def getUserById (st : ServerState) (uid : String) : Option SUser :=
  st.users.find? (fun u => u.id == uid)

/-- POST /api/auth/register: refuse an already-used email with
400 "User already exists"; otherwise store the user with the hashed
password and answer 201 with a token and the password-stripped user.
`hash` models `bcrypt.hash`, `sign` models `jwt.sign`. -/
def register (st : ServerState) (name email password : String) (bio : Option String)
    (newId : String) (now : Nat) (hash sign : String → String) :
    ApiResponse × ServerState :=
  if st.users.any (fun u => u.email == email) then
    ({ status := 400, body := .message "User already exists" }, st)
  else
    let u : SUser :=
      { id := newId, name := name, email := email, password := hash password
        bio := bio.getD "", createdAt := now }
    ({ status := 201, body := .auth (sign newId) (omitPassword u) },
     { st with users := st.users ++ [u] })

/-- POST /api/auth/login: find the user by email, test the password with
`compare` (models `bcrypt.compare`); both failures answer
400 "Invalid credentials", success answers the token and the
password-stripped user. The state is never changed. -/
def login (st : ServerState) (email password : String)
    (compare : String → String → Bool) (sign : String → String) : ApiResponse :=
  match st.users.find? (fun u => u.email == email) with
  | none => { status := 400, body := .message "Invalid credentials" }
  | some u =>
    if compare password u.password then
      { status := 200, body := .auth (sign u.id) (omitPassword u) }
    else
      { status := 400, body := .message "Invalid credentials" }

/-- GET /api/users/:id: 404 when absent, otherwise the password-stripped
user. -/
def getUserProfile (st : ServerState) (uid : String) : ApiResponse :=
  match getUserById st uid with
  | none => { status := 404, body := .message "User not found" }
  | some u => { status := 200, body := .user (omitPassword u) }

/-- POST /api/posts: no validation of `content` whatsoever — the post is
pushed into the store unconditionally, then echoed with its author
embedded (a missing author makes the handler throw into the 500 branch,
after the push). -/
def serverCreatePost (st : ServerState) (userId content : String)
    (newId : String) (now : Nat) : ApiResponse × ServerState :=
  let p : SPost := { id := newId, content := content, authorId := userId, createdAt := now }
  let st' : ServerState := { st with posts := st.posts ++ [p] }
  match getUserById st userId with
  | some author => ({ status := 201, body := .post p (authorInfo author) }, st')
  | none => ({ status := 500, body := .message "Server error" }, st')

/-- Replace every stored user's password by `f` of the user — the probe
used to state that responses do not depend on the stored hashes. -/
def setPasswords (f : SUser → String) (st : ServerState) : ServerState :=
  { st with users := st.users.map (fun u => { u with password := f u }) }

/-! ## Theorems -/

/-- C5: deleting the Post with id P also deletes every Like row and every
Comment row whose post_id is P: afterwards the post is gone, zero Like
rows and zero Comment rows reference P, and both derived counts of P are
zero. -/
theorem deletePost_cascades (db : DB) (pid : String) :
    like_count (deletePost db pid) pid = 0
    ∧ comment_count (deletePost db pid) pid = 0
    ∧ (deletePost db pid).posts.all (fun p => !(p.id == pid)) = true
    ∧ (deletePost db pid).likes.all (fun l => !(l.post_id == pid)) = true
    ∧ (deletePost db pid).comments.all (fun c => !(c.post_id == pid)) = true := by
  refine ⟨?_, ?_, ?_, ?_, ?_⟩ <;>
    simp [like_count, comment_count, deletePost, List.filter_filter,
      List.all_eq_true, List.mem_filter]

/-- C8: `checkIfLiked(U, P)` answers `true` exactly when a Like row with
user_id = U and post_id = P is in the store, and the absence of such a row
yields `false`, not an error — given that the store satisfies the
uniqueness constraint for the pair (at most one such row). -/
theorem checkIfLiked_presence (db : DB) (uid pid : String)
    (hu : (likeRows db uid pid).length ≤ 1) :
    ∃ b, checkIfLiked db uid pid = Except.ok b
      ∧ (b = true ↔ ∃ l ∈ db.likes, l.user_id = uid ∧ l.post_id = pid) := by
  cases hrows : likeRows db uid pid with
  | nil =>
    refine ⟨false, by simp [checkIfLiked, hrows], ?_⟩
    simp only [Bool.false_eq_true, false_iff]
    rintro ⟨l, hl, h1, h2⟩
    have hmem : l ∈ likeRows db uid pid := by
      simp [likeRows, List.mem_filter, hl, h1, h2]
    rw [hrows] at hmem
    exact absurd hmem (List.not_mem_nil l)
  | cons x t =>
    cases t with
    | nil =>
      refine ⟨true, by simp [checkIfLiked, hrows], ?_⟩
      simp only [true_iff]
      have hx : x ∈ likeRows db uid pid := by rw [hrows]; exact List.mem_singleton_self x
      have hx' := List.mem_filter.mp hx
      have hcond : x.user_id = uid ∧ x.post_id = pid := by simpa using hx'.2
      exact ⟨x, hx'.1, hcond.1, hcond.2⟩
    | cons y t' =>
      rw [hrows] at hu
      simp at hu

/-- C8 witness: a store with the single like of user u1 on post p1. -/
theorem checkIfLiked_presence_witness :
    ∃ b, checkIfLiked
        { profiles := [], posts := [],
          likes := [{ id := "l1", user_id := "u1", post_id := "p1", created_at := 1 }],
          comments := [] } "u1" "p1" = Except.ok b
      ∧ (b = true ↔ ∃ l ∈ [Like.mk "l1" "u1" "p1" 1], l.user_id = "u1" ∧ l.post_id = "p1") :=
  checkIfLiked_presence
    { profiles := [], posts := [],
      likes := [{ id := "l1", user_id := "u1", post_id := "p1", created_at := 1 }],
      comments := [] } "u1" "p1" (by decide)

/-- C4: `handleLike` with `currentlyLiked = true` deletes the (user, post)
Like rows — afterwards `checkIfLiked` answers `.ok false` — and sets the
displayed count to `max 0 (n - 1)`; with `currentlyLiked = false` (and no
pre-existing row, the user and post present) it inserts the Like row —
afterwards `checkIfLiked` answers `.ok true`, the aggregate count grows by
one — and sets the displayed count to `n + 1`; and starting from a
non-negative displayed count the updated count is never negative, in every
branch, including unliking a post the user has not liked. -/
theorem toggleLike_handleLike (db : DB) (uid pid lid : String) (n : Int) (t : Nat) :
    ((handleLike db uid pid true n lid t).db = deleteLikes db uid pid
      ∧ checkIfLiked (handleLike db uid pid true n lid t).db uid pid = Except.ok false
      ∧ (handleLike db uid pid true n lid t).likeCount = max 0 (n - 1))
    ∧ (likeRows db uid pid = [] →
       db.profiles.any (fun pr => pr.id == uid) = true →
       db.posts.any (fun p => p.id == pid) = true →
        checkIfLiked (handleLike db uid pid false n lid t).db uid pid = Except.ok true
        ∧ like_count (handleLike db uid pid false n lid t).db pid = like_count db pid + 1
        ∧ (handleLike db uid pid false n lid t).likeCount = n + 1)
    ∧ (0 ≤ n → ∀ b, 0 ≤ (handleLike db uid pid b n lid t).likeCount) := by
  refine ⟨⟨rfl, ?_, rfl⟩, ?_, ?_⟩
  · have hempty : likeRows (deleteLikes db uid pid) uid pid = [] := by
      simp [likeRows, deleteLikes, List.filter_filter]
    simp [handleLike, checkIfLiked, hempty]
  · intro hno hp hq
    have hany : db.likes.any (fun l => l.user_id == uid && l.post_id == pid) = false := by
      by_contra hc
      rw [Bool.not_eq_false, List.any_eq_true] at hc
      obtain ⟨l, hl, hcond⟩ := hc
      have : l ∈ likeRows db uid pid := List.mem_filter.mpr ⟨hl, hcond⟩
      rw [hno] at this
      exact absurd this (List.not_mem_nil l)
    have hins : insertLike db lid uid pid t =
        .ok { db with likes := db.likes ++ [{ id := lid, user_id := uid, post_id := pid, created_at := t }] } := by
      simp [insertLike, hany, hp, hq]
    refine ⟨?_, ?_, ?_⟩
    · have hrows : likeRows (handleLike db uid pid false n lid t).db uid pid =
          [{ id := lid, user_id := uid, post_id := pid, created_at := t }] := by
        simp only [handleLike, if_neg (Bool.false_ne_true), hins]
        simp only [likeRows] at hno ⊢
        simp [List.filter_append, hno]
      simp [checkIfLiked, hrows]
    · simp only [handleLike, if_neg (Bool.false_ne_true), hins]
      simp [like_count, List.filter_append]
    · simp [handleLike, hins]
  · intro hn b
    cases b with
    | true =>
      simp only [handleLike, if_pos rfl]
      exact le_max_left 0 _
    | false =>
      simp only [handleLike, if_neg (Bool.false_ne_true)]
      cases hins : insertLike db lid uid pid t with
      | ok db' => simpa using Int.le_trans hn (by omega)
      | error e => simpa using hn

/-- C1: after user U has liked post P (a successful insert from a state
with no (U, P) row), a second insert for the same pair fails with the
uniqueness-constraint conflict, the store still holds exactly one (U, P)
Like row, and the failed attempt leaves the store — hence `like_count(P)` —
unchanged (the client's `handleLike` error path keeps the same store). -/
theorem duplicate_like_conflicts (db db' : DB) (uid pid lid lid' : String)
    (t t' : Nat) (n : Int)
    (h0 : likeRows db uid pid = [])
    (h1 : insertLike db lid uid pid t = Except.ok db') :
    insertLike db' lid' uid pid t' = Except.error DbError.conflict
    ∧ (likeRows db' uid pid).length = 1
    ∧ (handleLike db' uid pid false n lid' t').db = db'
    ∧ like_count (handleLike db' uid pid false n lid' t').db pid = like_count db' pid := by
  have hany : db.likes.any (fun l => l.user_id == uid && l.post_id == pid) = false := by
    by_contra hc
    rw [Bool.not_eq_false, List.any_eq_true] at hc
    obtain ⟨l, hl, hcond⟩ := hc
    have : l ∈ likeRows db uid pid := List.mem_filter.mpr ⟨hl, hcond⟩
    rw [h0] at this
    exact absurd this (List.not_mem_nil l)
  rw [insertLike, hany] at h1
  by_cases hp : db.profiles.any (fun pr => pr.id == uid)
  · by_cases hq : db.posts.any (fun p => p.id == pid)
    · simp only [hp, hq, Bool.not_true, Bool.false_eq_true, if_false, if_neg] at h1
      simp only [reduceIte, Except.ok.injEq] at h1
      subst h1
      have hrows : likeRows
          { db with likes := db.likes ++ [{ id := lid, user_id := uid, post_id := pid, created_at := t }] }
          uid pid = [{ id := lid, user_id := uid, post_id := pid, created_at := t }] := by
        simp only [likeRows] at h0 ⊢
        simp [List.filter_append, h0]
      have hany' :
          ({ db with likes := db.likes ++ [{ id := lid, user_id := uid, post_id := pid, created_at := t }] } : DB).likes.any
            (fun l => l.user_id == uid && l.post_id == pid) = true := by
        simp [List.any_append]
      have hconf : insertLike
          { db with likes := db.likes ++ [{ id := lid, user_id := uid, post_id := pid, created_at := t }] }
          lid' uid pid t' = Except.error DbError.conflict := by
        simp [insertLike, hany']
      refine ⟨hconf, by simp [hrows], ?_, ?_⟩
      · simp [handleLike, hconf]
      · simp [handleLike, hconf]
    · simp [hq] at h1
  · simp [hp] at h1

/-- C1 witness: user u1 likes post p1 in a one-profile, one-post store;
the second like attempt conflicts and changes nothing. -/
theorem duplicate_like_conflicts_witness :
    insertLike
        { profiles := [{ id := "u1", name := "Alice", email := "a@x", bio := "", avatar_url := none, created_at := 0 }],
          posts := [{ id := "p1", content := "hello", user_id := "u1", created_at := 0 }],
          likes := [{ id := "l1", user_id := "u1", post_id := "p1", created_at := 1 }],
          comments := [] } "l2" "u1" "p1" 2 = Except.error DbError.conflict
    ∧ (likeRows
        { profiles := [{ id := "u1", name := "Alice", email := "a@x", bio := "", avatar_url := none, created_at := 0 }],
          posts := [{ id := "p1", content := "hello", user_id := "u1", created_at := 0 }],
          likes := [{ id := "l1", user_id := "u1", post_id := "p1", created_at := 1 }],
          comments := [] } "u1" "p1").length = 1
    ∧ (handleLike
        { profiles := [{ id := "u1", name := "Alice", email := "a@x", bio := "", avatar_url := none, created_at := 0 }],
          posts := [{ id := "p1", content := "hello", user_id := "u1", created_at := 0 }],
          likes := [{ id := "l1", user_id := "u1", post_id := "p1", created_at := 1 }],
          comments := [] } "u1" "p1" false 7 "l2" 2).db =
        { profiles := [{ id := "u1", name := "Alice", email := "a@x", bio := "", avatar_url := none, created_at := 0 }],
          posts := [{ id := "p1", content := "hello", user_id := "u1", created_at := 0 }],
          likes := [{ id := "l1", user_id := "u1", post_id := "p1", created_at := 1 }],
          comments := [] }
    ∧ like_count (handleLike
        { profiles := [{ id := "u1", name := "Alice", email := "a@x", bio := "", avatar_url := none, created_at := 0 }],
          posts := [{ id := "p1", content := "hello", user_id := "u1", created_at := 0 }],
          likes := [{ id := "l1", user_id := "u1", post_id := "p1", created_at := 1 }],
          comments := [] } "u1" "p1" false 7 "l2" 2).db "p1" =
      like_count
        { profiles := [{ id := "u1", name := "Alice", email := "a@x", bio := "", avatar_url := none, created_at := 0 }],
          posts := [{ id := "p1", content := "hello", user_id := "u1", created_at := 0 }],
          likes := [{ id := "l1", user_id := "u1", post_id := "p1", created_at := 1 }],
          comments := [] } "p1" :=
  duplicate_like_conflicts
    { profiles := [{ id := "u1", name := "Alice", email := "a@x", bio := "", avatar_url := none, created_at := 0 }],
      posts := [{ id := "p1", content := "hello", user_id := "u1", created_at := 0 }],
      likes := [], comments := [] }
    { profiles := [{ id := "u1", name := "Alice", email := "a@x", bio := "", avatar_url := none, created_at := 0 }],
      posts := [{ id := "p1", content := "hello", user_id := "u1", created_at := 0 }],
      likes := [{ id := "l1", user_id := "u1", post_id := "p1", created_at := 1 }],
      comments := [] }
    "u1" "p1" "l1" "l2" 1 2 7 rfl rfl

/-- C6: `fetchPosts` returns all posts of the store (a permutation of the
posts table), sorted by creation time in descending order, each carrying
its like and comment row counts and the author profile found by the
post's `user_id` (the embedded profile matches the id, and is absent only
when no stored profile matches). -/
theorem fetchPosts_sorted_joined (db : DB) :
    ((fetchPosts db).map FeedPost.post).Perm db.posts
    ∧ List.Sorted postLater ((fetchPosts db).map FeedPost.post)
    ∧ (∀ e ∈ fetchPosts db,
        e.like_count = (db.likes.filter (fun l => l.post_id == e.post.id)).length
        ∧ e.comment_count = (db.comments.filter (fun c => c.post_id == e.post.id)).length
        ∧ (∀ pr, e.author = some pr → pr ∈ db.profiles ∧ pr.id = e.post.user_id)
        ∧ (e.author = none → ∀ pr ∈ db.profiles, pr.id ≠ e.post.user_id)) := by
  have hmap : (fetchPosts db).map FeedPost.post = List.insertionSort postLater db.posts := by
    rw [fetchPosts, List.map_map]
    exact List.map_id _
  refine ⟨?_, ?_, ?_⟩
  · rw [hmap]; exact List.perm_insertionSort postLater db.posts
  · rw [hmap]; exact List.sorted_insertionSort postLater db.posts
  · intro e he
    obtain ⟨p, _, rfl⟩ := List.mem_map.mp he
    refine ⟨rfl, rfl, ?_, ?_⟩
    · intro pr hpr
      refine ⟨List.mem_of_find?_eq_some hpr, ?_⟩
      have := List.find?_some hpr
      simpa using this
    · intro hnone pr hpr
      have := List.find?_eq_none.mp hnone pr hpr
      simpa using this

/-- C7: `fetchComments(P)` returns exactly the comments whose post_id is P
(a permutation of that filter of the comments table), sorted by creation
time in ascending order, each joined with the author profile found by the
comment's `user_id`. -/
theorem fetchComments_filtered_sorted (db : DB) (pid : String) :
    ((fetchComments db pid).map CommentView.comment).Perm
      (db.comments.filter (fun c => c.post_id == pid))
    ∧ List.Sorted commentEarlier ((fetchComments db pid).map CommentView.comment)
    ∧ (∀ v ∈ fetchComments db pid,
        v.comment.post_id = pid
        ∧ v.comment ∈ db.comments
        ∧ (∀ pr, v.author = some pr → pr ∈ db.profiles ∧ pr.id = v.comment.user_id)
        ∧ (v.author = none → ∀ pr ∈ db.profiles, pr.id ≠ v.comment.user_id)) := by
  have hmap : (fetchComments db pid).map CommentView.comment
      = List.insertionSort commentEarlier (db.comments.filter (fun c => c.post_id == pid)) := by
    rw [fetchComments, List.map_map]
    exact List.map_id _
  refine ⟨?_, ?_, ?_⟩
  · rw [hmap]; exact List.perm_insertionSort commentEarlier _
  · rw [hmap]; exact List.sorted_insertionSort commentEarlier _
  · intro v hv
    obtain ⟨c, hc, rfl⟩ := List.mem_map.mp hv
    have hc' : c ∈ db.comments.filter (fun c => c.post_id == pid) :=
      (List.Perm.mem_iff (List.perm_insertionSort commentEarlier _)).mp hc
    have hc'' := List.mem_filter.mp hc'
    refine ⟨by simpa using hc''.2, hc''.1, ?_, ?_⟩
    · intro pr hpr
      refine ⟨List.mem_of_find?_eq_some hpr, ?_⟩
      have := List.find?_some hpr
      simpa using this
    · intro hnone pr hpr
      have := List.find?_eq_none.mp hnone pr hpr
      simpa using this

/-- C2 counterexample: the REST server's create-post route accepts the
empty content — which is empty after trimming — with status 201 and
inserts the post, instead of rejecting it with a validation error. -/
theorem createPost_empty_content_accepted :
    jsTrim "" = ""
    ∧ (serverCreatePost
        { users := [{ id := "1", name := "Demo User", email := "demo@example.com",
                      password := "h", bio := "", createdAt := 0 }],
          posts := [] } "1" "" "p1" 3).1.status = 201
    ∧ (serverCreatePost
        { users := [{ id := "1", name := "Demo User", email := "demo@example.com",
                      password := "h", bio := "", createdAt := 0 }],
          posts := [] } "1" "" "p1" 3).2.posts
      = [{ id := "p1", content := "", authorId := "1", createdAt := 3 }] :=
  ⟨rfl, rfl, rfl⟩

/-- C2 amended: the dashboard's `handleCreatePost` inserts a Post exactly
when the content is non-empty after trimming, and silently does nothing —
surfacing no validation error — when it is empty after trimming; the REST
server's create-post route performs no content validation at all and
appends the post whatever the content. -/
theorem createPost_trim_guard_amended :
    (∀ db user newPost pid now, jsTrim newPost = "" →
        handleCreatePost db user newPost pid now = CreatePostOutcome.noop)
    ∧ (∀ db (u : Profile) newPost pid now,
        jsTrim newPost ≠ "" →
        db.profiles.any (fun pr => pr.id == u.id) = true →
        handleCreatePost db (some u) newPost pid now =
          CreatePostOutcome.created
            { db with posts := db.posts ++ [{ id := pid, content := newPost, user_id := u.id, created_at := now }] })
    ∧ (∀ st uid content nid now,
        (serverCreatePost st uid content nid now).2.posts
          = st.posts ++ [{ id := nid, content := content, authorId := uid, createdAt := now }]) := by
  refine ⟨?_, ?_, ?_⟩
  · intro db user newPost pid now htrim
    simp [handleCreatePost, htrim]
  · intro db u newPost pid now htrim hmem
    rw [handleCreatePost, if_neg (by simpa using htrim)]
    simp [insertPost, hmem]
  · intro st uid content nid now
    rw [serverCreatePost]
    cases h : getUserById st uid <;> simp [h]

/-- C3 counterexample: a principal with no signup name and no email gets
the profile name "User", not the placeholder "New User" the claim
states. -/
theorem profile_placeholder_not_NewUser :
    ((handleUserSession { profiles := [], posts := [], likes := [], comments := [] }
        "u1" none none none 0).2.map Profile.name) = some "User"
    ∧ "User" ≠ "New User" :=
  ⟨rfl, by decide⟩

/-- C3 amended: when no profile exists for the principal,
`handleUserSession` creates and resolves to one whose name is the
signup-provided name when that is present and non-empty, else the local
part of the email when that is present and non-empty, else the fixed
placeholder "User"; its bio defaults to the empty string when no signup
bio is provided. -/
theorem profile_resolver_defaults_amended (db : DB) (uid : String)
    (metaName metaBio mail : Option String) (now : Nat)
    (habsent : db.profiles.find? (fun pr => pr.id == uid) = none) :
    ∃ p, (handleUserSession db uid metaName metaBio mail now).2 = some p
      ∧ p ∈ (handleUserSession db uid metaName metaBio mail now).1.profiles
      ∧ p.id = uid
      ∧ (∀ n, metaName = some n → n ≠ "" → p.name = n)
      ∧ (metaName = none → ∀ e, mail = some e → localPart e ≠ "" → p.name = localPart e)
      ∧ (metaName = none → mail = none → p.name = "User")
      ∧ (metaBio = none → p.bio = "") := by
  refine ⟨createdProfile uid metaName metaBio mail now, ?_, ?_, rfl, ?_, ?_, ?_, ?_⟩
  · simp [handleUserSession, habsent]
  · simp [handleUserSession, habsent]
  · intro n hn hne
    subst hn
    simp [createdProfile, newProfileName, strTruthy, hne]
  · intro hn e he hne
    subst hn; subst he
    simp [createdProfile, newProfileName, strTruthy, hne]
  · intro hn he
    subst hn; subst he
    simp [createdProfile, newProfileName, strTruthy]
  · intro hb
    subst hb
    simp [createdProfile, strTruthy]

/-- C3 witness: a first sign-in with signup name "Alice" and email
alice@example.com into an empty store. -/
theorem profile_resolver_defaults_witness :
    ∃ p, (handleUserSession { profiles := [], posts := [], likes := [], comments := [] }
          "u1" (some "Alice") none (some "alice@example.com") 5).2 = some p
      ∧ p ∈ (handleUserSession { profiles := [], posts := [], likes := [], comments := [] }
          "u1" (some "Alice") none (some "alice@example.com") 5).1.profiles
      ∧ p.id = "u1"
      ∧ (∀ n, (some "Alice" : Option String) = some n → n ≠ "" → p.name = n)
      ∧ ((some "Alice" : Option String) = none →
          ∀ e, (some "alice@example.com" : Option String) = some e → localPart e ≠ "" → p.name = localPart e)
      ∧ ((some "Alice" : Option String) = none →
          (some "alice@example.com" : Option String) = none → p.name = "User")
      ∧ ((none : Option String) = none → p.bio = "") :=
  profile_resolver_defaults_amended
    { profiles := [], posts := [], likes := [], comments := [] }
    "u1" (some "Alice") none (some "alice@example.com") 5 rfl

/-- C9: no response of the register, login and get-user-by-id routes
carries the stored password hash: the stripped user object forgets the
password field entirely, the whole register response is unchanged when the
submitted password changes, the get-user response is unchanged when every
stored password is rewritten arbitrarily, and a successful login returns
exactly the password-stripped stored user. -/
theorem responses_omit_password :
    (∀ (u : SUser) (pw : String), omitPassword { u with password := pw } = omitPassword u)
    ∧ (∀ st name email pw pw' bio nid now hash sign,
        (register st name email pw bio nid now hash sign).1
          = (register st name email pw' bio nid now hash sign).1)
    ∧ (∀ st uid f, getUserProfile (setPasswords f st) uid = getUserProfile st uid)
    ∧ (∀ st email pw compare sign tok pu,
        (login st email pw compare sign).body = ApiBody.auth tok pu →
        ∃ u, u ∈ st.users ∧ pu = omitPassword u) := by
  refine ⟨fun u pw => rfl, ?_, ?_, ?_⟩
  · intro st name email pw pw' bio nid now hash sign
    rw [register, register]
    by_cases h : st.users.any (fun u => u.email == email) <;> simp [h, omitPassword]
  · intro st uid f
    rw [getUserProfile, getUserProfile, getUserById, getUserById, setPasswords]
    rw [List.find?_map]
    have : ((fun u => u.id == uid) ∘ fun u => { u with password := f u })
        = (fun (u : SUser) => u.id == uid) := rfl
    rw [this]
    cases st.users.find? (fun u => u.id == uid) <;> rfl
  · intro st email pw compare sign tok pu h
    rw [login] at h
    cases hfind : st.users.find? (fun u => u.email == email) with
    | none => rw [hfind] at h; exact absurd h (by simp)
    | some u =>
      rw [hfind] at h
      dsimp only at h
      by_cases hcmp : compare pw u.password
      · rw [if_pos hcmp] at h
        simp only [ApiBody.auth.injEq] at h
        exact ⟨u, List.mem_of_find?_eq_some hfind, h.2.symm⟩
      · rw [if_neg hcmp] at h
        exact absurd h (by simp)

/-- C10: registering with an email some stored user already has answers
status 400 with the body "User already exists", issues no token (the body
is not an auth body), and leaves the whole store — users and posts —
unchanged. -/
theorem register_existing_email_conflict (st : ServerState)
    (name email pw : String) (bio : Option String) (nid : String) (now : Nat)
    (hash sign : String → String)
    (h : ∃ u ∈ st.users, u.email = email) :
    (register st name email pw bio nid now hash sign).1.status = 400
    ∧ (register st name email pw bio nid now hash sign).1.body
        = ApiBody.message "User already exists"
    ∧ (∀ tok pu, (register st name email pw bio nid now hash sign).1.body
        ≠ ApiBody.auth tok pu)
    ∧ (register st name email pw bio nid now hash sign).2 = st := by
  have hany : st.users.any (fun u => u.email == email) = true := by
    obtain ⟨u, hu, he⟩ := h
    exact List.any_eq_true.mpr ⟨u, hu, by simp [he]⟩
  rw [register, if_pos hany]
  exact ⟨rfl, rfl, fun tok pu => by simp, rfl⟩

/-- C10 witness: registering the stored demo email again. -/
theorem register_existing_email_conflict_witness :
    (register
        { users := [{ id := "1", name := "Demo User", email := "demo@example.com",
                      password := "h", bio := "", createdAt := 0 }],
          posts := [] }
        "Eve" "demo@example.com" "pw" none "2" 9 id id).1.status = 400
    ∧ (register
        { users := [{ id := "1", name := "Demo User", email := "demo@example.com",
                      password := "h", bio := "", createdAt := 0 }],
          posts := [] }
        "Eve" "demo@example.com" "pw" none "2" 9 id id).1.body
        = ApiBody.message "User already exists"
    ∧ (∀ tok pu, (register
        { users := [{ id := "1", name := "Demo User", email := "demo@example.com",
                      password := "h", bio := "", createdAt := 0 }],
          posts := [] }
        "Eve" "demo@example.com" "pw" none "2" 9 id id).1.body
        ≠ ApiBody.auth tok pu)
    ∧ (register
        { users := [{ id := "1", name := "Demo User", email := "demo@example.com",
                      password := "h", bio := "", createdAt := 0 }],
          posts := [] }
        "Eve" "demo@example.com" "pw" none "2" 9 id id).2
      = { users := [{ id := "1", name := "Demo User", email := "demo@example.com",
                      password := "h", bio := "", createdAt := 0 }],
          posts := [] } :=
  register_existing_email_conflict
    { users := [{ id := "1", name := "Demo User", email := "demo@example.com",
                  password := "h", bio := "", createdAt := 0 }],
      posts := [] }
    "Eve" "demo@example.com" "pw" none "2" 9 id id
    ⟨{ id := "1", name := "Demo User", email := "demo@example.com",
       password := "h", bio := "", createdAt := 0 }, by simp, rfl⟩

end ConnectHub
